import Mathlib

/-!
Shallow embedding of the google-sheet-api repository (two variants of a
Google-Sheets proxy server) and proofs about its data-reshaping and caching
logic.

Source layout:
* `src/index.js` — the flat-values variant: `parseSheetData(rows)` over a
  plain values matrix, plus a TTL cache around the fetch. Embedded in
  namespace `Flat`.
* `src/unnamed/part_000` — the grid-with-formatting variant:
  `rgbToColorName`, `parseSheetData(gridData)` over a grid with per-cell
  background colors, plus the same TTL cache. Embedded in namespace `Grid`.

JavaScript-specific behaviour is modelled explicitly:
* missing values / `undefined` are `Option`;
* property access on `undefined` (a thrown `TypeError`) is `Except.error`;
* `Number(...)` on strings is `jsNumber` (decimal literals only — exponents,
  hex literals and `Infinity` are not modelled, no claim depends on them),
  with `JsNum.nan` standing for `NaN`;
* `x || y` falsiness of `NaN`, `0` and `""` is modelled where it occurs;
* object key assignment `obj[k] = v` is `setKey` (replace the binding if the
  key is present, keeping its position, else append — JS object insertion
  order semantics; the lists built here never hold a duplicate key).
-/

set_option autoImplicit false

universe u v

/-- JS object key assignment on an association list: replace the first binding
of the key in place, else append the new binding at the end. -/
def setKey {α : Type u} : List (String × α) → String → α → List (String × α)
  | [], k, v => [(k, v)]
  | (k0, v0) :: t, k, v =>
      if k0 = k then (k, v) :: t else (k0, v0) :: setKey t k v

/-- JS object key lookup on an association list. -/
def lookupKey {α : Type u} : List (String × α) → String → Option α
  | [], _ => none
  | (k0, v0) :: t, k => if k0 = k then some v0 else lookupKey t k

/-- Characters removed by JavaScript's String.prototype.trim (the common
whitespace subset; the exotic Unicode space characters never occur in the
inputs considered here). -/
def isJsSpace (c : Char) : Bool :=
  c = ' ' || c = '\t' || c = '\n' || c = '\r' || c = '\x0b' || c = '\x0c'

/-- Model of JavaScript String.prototype.trim. -/
def jsTrim (s : String) : String :=
  String.mk (((s.toList.dropWhile isJsSpace).reverse.dropWhile isJsSpace).reverse)

/-- A JavaScript number that can also be the value NaN. -/
inductive JsNum : Type where
  | nan : JsNum
  | num (q : ℚ) : JsNum
deriving DecidableEq, Repr

/-- Digit list to natural number (most significant first). -/
def digitsToNat (l : List Char) : Nat :=
  l.foldl (fun a c => 10 * a + (c.toNat - 48)) 0

/-- Unsigned decimal literal: digits, optionally followed by a dot and more
digits; at least one digit overall. Returns none on any other shape. -/
def parseDecimal (l : List Char) : Option ℚ :=
  let intPart := l.takeWhile Char.isDigit
  let rest := l.dropWhile Char.isDigit
  match rest with
  | [] => if intPart = [] then none else some (digitsToNat intPart : ℚ)
  | '.' :: frac =>
      if frac.all Char.isDigit && (!intPart.isEmpty || !frac.isEmpty) then
        some ((digitsToNat intPart : ℚ) + (digitsToNat frac : ℚ) / (10 : ℚ) ^ frac.length)
      else none
  | _ => none

/-- Model of JavaScript Number() applied to a string, restricted to signed
decimal literals: the string is trimmed; an empty remainder is 0; otherwise an
optional sign followed by a decimal literal; everything else is NaN. -/
def jsNumber (s : String) : JsNum :=
  let t := jsTrim s
  if t = "" then JsNum.num 0
  else
    match t.toList with
    | '-' :: restChars =>
        match parseDecimal restChars with
        | some q => JsNum.num (-q)
        | none => JsNum.nan
    | '+' :: restChars =>
        match parseDecimal restChars with
        | some q => JsNum.num q
        | none => JsNum.nan
    | l =>
        match parseDecimal l with
        | some q => JsNum.num q
        | none => JsNum.nan

/-- Model of the JavaScript expression Number(v) || null: NaN and 0 are falsy,
so they fall through to null (none); any other number is kept. -/
def jsOrNull (n : JsNum) : Option JsNum :=
  match n with
  | JsNum.nan => none
  | JsNum.num q => if q = 0 then none else some (JsNum.num q)

/-- The coercion applied to the Compliant cell text in the grid variant:
Number(getCellData('Compliant').value) || null. -/
def numberOrNull (s : String) : Option JsNum :=
  jsOrNull (jsNumber s)

/-- The configured sheet/tab name, identical in both variants. -/
def SHEET_NAME : String := "Sheet1"

/-- Cache TTL: 30 * 1000 milliseconds in both variants. -/
def CACHE_DURATION : Int := 30 * 1000

/-- The top-level response shape of both parsers: a single key (the sheet
name) bound to the per-entity data. -/
structure SheetJson (α : Type u) : Type u where
  key : String
  data : List (String × α)
deriving DecidableEq, Repr

namespace Grid

/-- A background color object: each channel may be omitted in the JSON
(Google omits zero channels), defaulting to 0 at the destructuring site. -/
structure Color : Type where
  red : Option ℚ
  green : Option ℚ
  blue : Option ℚ
deriving DecidableEq, Repr

/-- The effectiveFormat object of a cell, as far as the code reads it. -/
structure EffectiveFormat : Type where
  backgroundColor : Option Color
deriving DecidableEq, Repr

/-- A grid cell: formatted text and optional formatting. -/
structure Cell : Type where
  formattedValue : Option String
  effectiveFormat : Option EffectiveFormat
deriving DecidableEq, Repr

/-- A row of rowData: its values array may be absent. -/
structure Row : Type where
  values : Option (List Cell)
deriving DecidableEq, Repr

/-- An element of sheet.data: its rowData array may be absent. -/
structure GridSection : Type where
  rowData : Option (List Row)
deriving DecidableEq, Repr

/-- The properties object of a sheet. -/
structure SheetProperties : Type where
  title : String
deriving DecidableEq, Repr

/-- A sheet of the spreadsheet response: title plus optional data sections. -/
structure Sheet : Type where
  properties : SheetProperties
  data : Option (List GridSection)
deriving DecidableEq, Repr

/-- The whole grid response body. -/
structure GridData : Type where
  sheets : List Sheet
deriving DecidableEq, Repr

/-- The optional chaining cell.effectiveFormat?.backgroundColor. -/
def bgColorOf (c : Cell) : Option Color :=
  match c.effectiveFormat with
  | none => none
  | some f => f.backgroundColor

/-- Embedding of rgbToColorName from src/unnamed/part_000: absent color is
Gray; channels default to 0; red when red > 0.8 and green < 0.2 and
blue < 0.2; else green when green > 0.5 and red < 0.5; else Gray. -/
def rgbToColorName (rgbColor : Option Color) : String :=
  match rgbColor with
  | none => "Gray"
  | some c =>
      let red := c.red.getD 0
      let green := c.green.getD 0
      let blue := c.blue.getD 0
      if red > 0.8 ∧ green < 0.2 ∧ blue < 0.2 then "Red"
      else if green > 0.5 ∧ red < 0.5 then "Green"
      else "Gray"

/-- The value stored under a subheading name: an object with a colour. -/
structure SubEntry : Type where
  colour : String
deriving DecidableEq, Repr

/-- The Subheading field of an entity: a mapping while the parse is running,
possibly replaced by the numeric literal 0 in the cleanup pass. -/
inductive SubheadingVal : Type where
  | num0 : SubheadingVal
  | smap (entries : List (String × SubEntry)) : SubheadingVal
deriving DecidableEq, Repr

/-- A status_C / status_E object. -/
structure StatusEntry : Type where
  name : String
  colour : String
deriving DecidableEq, Repr

/-- An entity record of the grid variant. The field percentCompliant embeds
the JS key written as the string percent sign followed by Compliant. -/
structure EntityRecord : Type where
  Subheading : SubheadingVal
  Compliant : Option JsNum
  Total : String
  Mising : String
  percentCompliant : String
  status_C : Option StatusEntry
  status_E : Option StatusEntry
deriving DecidableEq, Repr

/-- Embedding of the getCellData helper: look the header up in the header
map; a missing header or a missing cell yields empty text and Gray; else the
cell's formatted text (empty when absent) and its classified color. -/
def getCellData (hm : List (String × Nat)) (rowData : List Cell)
    (headerName : String) : String × String :=
  match lookupKey hm headerName with
  | none => ("", "Gray")
  | some idx =>
      match rowData.get? idx with
      | none => ("", "Gray")
      | some cell => (cell.formattedValue.getD "", rgbToColorName (bgColorOf cell))

/-- Embedding of the headerMap construction: for each header cell text (in
order), when it is present and non-empty, bind its trimmed text to the column
index (a later duplicate overwrites an earlier one). -/
def buildHeaderMap : List (Option String) → Nat → List (String × Nat) → List (String × Nat)
  | [], _, acc => acc
  | h :: t, i, acc =>
      buildHeaderMap t (i + 1)
        (match h with
         | some s => if s ≠ "" then setKey acc (jsTrim s) i else acc
         | none => acc)

/-- The mutable state of the row loop: the data object under construction and
the currently open entity key. -/
structure LoopState : Type where
  data : List (String × EntityRecord)
  currentServiceKey : Option String
deriving DecidableEq, Repr

/-- The service-name text of a row, as the loop reads it. -/
def serviceNameOf (hm : List (String × Nat)) (row : Row) : String :=
  (getCellData hm (row.values.getD []) "Service").1

/-- The subheading text of a row, as the loop reads it. -/
def subheadingNameOf (hm : List (String × Nat)) (row : Row) : String :=
  (getCellData hm (row.values.getD []) "Subheading").1

/-- Embedding of the branch that starts a new entity record on a named row.
The two status objects are attached by mutation right after the insertion in
the source; nothing reads the record in between, so they are built into the
record before the single insertion here. -/
def startRecord (hm : List (String × Nat)) (rowData : List Cell) (serviceName : String)
    (st : LoopState) : LoopState :=
  let key := jsTrim serviceName
  let statusC := getCellData hm rowData "Status C"
  let statusE := getCellData hm rowData "Status E"
  let base : EntityRecord :=
    { Subheading := SubheadingVal.smap []
      Compliant := numberOrNull (getCellData hm rowData "Compliant").1
      Total := (getCellData hm rowData "Total").1
      Mising := (getCellData hm rowData "Mising").1
      percentCompliant := (getCellData hm rowData "% Compliant").1
      status_C := if statusC.1 ≠ "" then some ⟨statusC.1, statusC.2⟩ else none
      status_E := if statusE.1 ≠ "" then some ⟨statusE.1, statusE.2⟩ else none }
  ⟨setKey st.data key base, some key⟩

/-- Embedding of the branch that attaches a subheading entry to the open
entity. No entity open means no effect. The lookup-failure branch is
unreachable (the open key is always bound in the data object); it is a no-op
here. The typeof check resets a non-object Subheading to an empty mapping
before inserting (within one parse the Subheading is always an object at this
point, so the reset branch is equally unreachable). -/
def attachSubheading (hm : List (String × Nat)) (rowData : List Cell)
    (subheadingName : String) (st : LoopState) : LoopState :=
  match st.currentServiceKey with
  | none => st
  | some key =>
      match lookupKey st.data key with
      | none => st
      | some r =>
          let entries :=
            match r.Subheading with
            | SubheadingVal.smap m => m
            | SubheadingVal.num0 => []
          let colour := (getCellData hm rowData "Subheading").2
          ⟨setKey st.data key
              { r with Subheading :=
                  SubheadingVal.smap (setKey entries (jsTrim subheadingName) ⟨colour⟩) },
            st.currentServiceKey⟩

/-- The first if-block of the loop body: a row whose service text is truthy
with non-empty trimmed value starts a new record. -/
def nameStep (hm : List (String × Nat)) (st : LoopState) (row : Row) : LoopState :=
  if serviceNameOf hm row ≠ "" ∧ jsTrim (serviceNameOf hm row) ≠ "" then
    startRecord hm (row.values.getD []) (serviceNameOf hm row) st
  else st

/-- The second if-block of the loop body: a row whose subheading text is
truthy with non-empty trimmed value attaches an entry to the open entity. -/
def subheadingStep (hm : List (String × Nat)) (st : LoopState) (row : Row) : LoopState :=
  if subheadingNameOf hm row ≠ "" ∧ jsTrim (subheadingNameOf hm row) ≠ "" then
    attachSubheading hm (row.values.getD []) (subheadingNameOf hm row) st
  else st

/-- Embedding of one iteration of the row loop: a named row starts a record
(and becomes the open entity); independently (the two blocks are not mutually
exclusive), a row with a non-empty trimmed subheading attaches an entry to
the open entity, if any. -/
def processRow (hm : List (String × Nat)) (st : LoopState) (row : Row) : LoopState :=
  subheadingStep hm (nameStep hm st row) row

/-- The whole row loop, started from an empty data object and no open
entity, over the data rows (the rows after the header row). -/
def parseRows (hm : List (String × Nat)) (dataRows : List Row) : LoopState :=
  dataRows.foldl (processRow hm) ⟨[], none⟩

/-- The cleanup applied to one record: an (object-valued) empty Subheading
mapping becomes the numeric literal 0; everything else is untouched (the
literal 0 itself is falsy, so the source's truthiness guard skips it). -/
def cleanupRecord (r : EntityRecord) : EntityRecord :=
  match r.Subheading with
  | SubheadingVal.smap [] => { r with Subheading := SubheadingVal.num0 }
  | _ => r

/-- The final cleanup loop over all records. -/
def cleanupSubheadings (d : List (String × EntityRecord)) : List (String × EntityRecord) :=
  d.map (fun p => (p.1, cleanupRecord p.2))

/-- The header map built from the header row's cells. -/
def headerMapOf (headerCells : List Cell) : List (String × Nat) :=
  buildHeaderMap (headerCells.map (fun c => c.formattedValue)) 0 []

/-- The transformer core on a rowData array: header row extraction (reading
the values of an absent header row throws), header map construction, row
loop, cleanup. -/
def parseGridRows (rows : List Row) : Except String (List (String × EntityRecord)) :=
  match rows with
  | [] => Except.error "TypeError: cannot read values of undefined"
  | headerRow :: dataRows =>
      match headerRow.values with
      | none => Except.error "TypeError: cannot read map of undefined"
      | some headerCells =>
          Except.ok (cleanupSubheadings (parseRows (headerMapOf headerCells) dataRows).data)

/-- Embedding of parseSheetData from src/unnamed/part_000. The guard returns
the empty result when no sheet title matches, when the matched sheet has no
data field, or when data[0] exists without rowData; reading data[0] of an
empty data array throws a TypeError before the rowData test. -/
def parseSheetData (g : GridData) : Except String (SheetJson EntityRecord) :=
  match g.sheets.find? (fun s => s.properties.title = SHEET_NAME) with
  | none => Except.ok ⟨SHEET_NAME, []⟩
  | some sheet =>
      match sheet.data with
      | none => Except.ok ⟨SHEET_NAME, []⟩
      | some sections =>
          match sections.head? with
          | none => Except.error "TypeError: cannot read rowData of undefined"
          | some d0 =>
              match d0.rowData with
              | none => Except.ok ⟨SHEET_NAME, []⟩
              | some rows =>
                  match parseGridRows rows with
                  | Except.error e => Except.error e
                  | Except.ok d => Except.ok ⟨SHEET_NAME, d⟩

/-- Specification predicate: the Compliant field is null or a nonzero
number (in particular never NaN and never 0). -/
def GoodCompliant (r : EntityRecord) : Prop :=
  r.Compliant = none ∨ ∃ q : ℚ, r.Compliant = some (JsNum.num q) ∧ q ≠ 0

/-- Specification predicate for records while the row loop runs: the
Subheading field is still a mapping, and the Compliant field is well formed. -/
def GoodRec (r : EntityRecord) : Prop :=
  (∃ m, r.Subheading = SubheadingVal.smap m) ∧ GoodCompliant r

/-- Specification predicate for records after the cleanup pass: the
Subheading field is the literal 0 or a non-empty mapping, and the Compliant
field is well formed. -/
def FinalGoodRec (r : EntityRecord) : Prop :=
  (r.Subheading = SubheadingVal.num0 ∨
    ∃ m, r.Subheading = SubheadingVal.smap m ∧ m ≠ []) ∧
  GoodCompliant r

end Grid

namespace Flat

/-- A field value of a record of the flat variant: JS null, a number, NaN, a
string passed through verbatim, or undefined (an out-of-range row access that
is neither tested against the dash sentinel nor coerced). -/
inductive FlatVal : Type where
  | null : FlatVal
  | num (q : ℚ) : FlatVal
  | nan : FlatVal
  | str (s : String) : FlatVal
  | undef : FlatVal
deriving DecidableEq, Repr

/-- Number(v) for an optional string: Number(undefined) is NaN. -/
def jsNumToVal : Option String → FlatVal
  | none => FlatVal.nan
  | some s =>
      match jsNumber s with
      | JsNum.nan => FlatVal.nan
      | JsNum.num q => FlatVal.num q

/-- Embedding of the column-1 coercion of src/index.js: the exact texts dash
and the word null become JS null; everything else goes through Number(). -/
def coerceCompliant (v : Option String) : FlatVal :=
  if v = some "-" ∨ v = some "null" then FlatVal.null else jsNumToVal v

/-- Embedding of the column-2 coercion: dash becomes null; everything else
goes through Number(). -/
def coerceNumeric (v : Option String) : FlatVal :=
  if v = some "-" then FlatVal.null else jsNumToVal v

/-- Embedding of the column-3 and column-4 coercion: dash becomes null;
everything else is passed through (undefined stays undefined). -/
def coerceText (v : Option String) : FlatVal :=
  if v = some "-" then FlatVal.null
  else
    match v with
    | none => FlatVal.undef
    | some s => FlatVal.str s

/-- The record built for a named row of the flat variant. The keys are the
header cells at columns 1 to 4 (a missing header cell yields the JS computed
key "undefined"); a duplicate computed key keeps the later value, as in a JS
object literal. -/
def makeRecord (headers row : List String) : List (String × FlatVal) :=
  let key := fun (j : Nat) => (headers.get? j).getD "undefined"
  setKey
    (setKey
      (setKey
        (setKey [] (key 1) (coerceCompliant (row.get? 1)))
        (key 2) (coerceNumeric (row.get? 2)))
      (key 3) (coerceText (row.get? 3)))
    (key 4) (coerceText (row.get? 4))

/-- One iteration of the flat row loop: a row whose cell 0 is absent or the
empty string is skipped; otherwise its raw (untrimmed) cell-0 text keys a
fresh record. -/
def processRow (headers : List String) (data : List (String × List (String × FlatVal)))
    (row : List String) : List (String × List (String × FlatVal)) :=
  match row.get? 0 with
  | none => data
  | some serviceName =>
      if serviceName = "" then data
      else setKey data serviceName (makeRecord headers row)

/-- Embedding of parseSheetData from src/index.js. The input is the values
matrix of the response; passing an absent matrix (undefined) throws on the
immediate rows[0] access once the loop body reads headers — modelled as an
error up front, matching the JS TypeError. An empty matrix yields the empty
result because the loop never runs. -/
def parseSheetData (values : Option (List (List String))) :
    Except String (SheetJson (List (String × FlatVal))) :=
  match values with
  | none => Except.error "TypeError: cannot read properties of undefined"
  | some rows =>
      match rows with
      | [] => Except.ok ⟨SHEET_NAME, []⟩
      | headers :: dataRows =>
          Except.ok ⟨SHEET_NAME, dataRows.foldl (processRow headers) []⟩

end Flat

/-- The process-wide cache slot shared by the two cache variables of the
source: cache (null before the first successful fetch) and cacheTimestamp
(milliseconds, 0 initially). -/
structure CacheState : Type where
  cache : Option (SheetJson Grid.EntityRecord)
  cacheTimestamp : Int
deriving DecidableEq, Repr

/-- The observable outcome of one fetchSheetData call: the cache slot after
the call, the returned value or thrown error, and whether an upstream HTTP
request was issued. -/
structure FetchOutcome : Type where
  state : CacheState
  result : Except String (SheetJson Grid.EntityRecord)
  upstreamCalled : Bool
deriving Repr

/-- The cache-miss path of fetchSheetData: await the upstream call (a thrown
network error propagates with the cache untouched), parse (a thrown parse
error also propagates with the cache untouched), then store result and
timestamp and return the result. -/
def fetchFresh (st : CacheState) (now : Int) (upstream : Except String Grid.GridData) :
    FetchOutcome :=
  match upstream with
  | Except.error e => ⟨st, Except.error e, true⟩
  | Except.ok g =>
      match Grid.parseSheetData g with
      | Except.error e => ⟨st, Except.error e, true⟩
      | Except.ok j => ⟨⟨some j, now⟩, Except.ok j, true⟩

/-- Embedding of fetchSheetData: when the cache is non-null and its age is
below CACHE_DURATION, return it with no upstream call; otherwise take the
cache-miss path. -/
def fetchSheetData (st : CacheState) (now : Int) (upstream : Except String Grid.GridData) :
    FetchOutcome :=
  match st.cache with
  | some c =>
      if now - st.cacheTimestamp < CACHE_DURATION then ⟨st, Except.ok c, false⟩
      else fetchFresh st now upstream
  | none => fetchFresh st now upstream

/-- The observable HTTP response of the /api/sheet-data handler. -/
structure ApiResponse : Type where
  status : Nat
  body : Option (SheetJson Grid.EntityRecord)
  error : Option String
  details : Option String
deriving Repr

/-- Embedding of the /api/sheet-data route handler: a successful fetch is a
200 JSON body; a thrown error is caught into a 500 body with a fixed error
text and the thrown message as details. -/
def handleSheetDataRequest (st : CacheState) (now : Int)
    (upstream : Except String Grid.GridData) : CacheState × ApiResponse :=
  let o := fetchSheetData st now upstream
  match o.result with
  | Except.ok j => (o.state, ⟨200, some j, none, none⟩)
  | Except.error e =>
      (o.state, ⟨500, none, some "Failed to fetch sheet data", some e⟩)

/-! ## Helper lemmas -/

theorem mem_setKey {α : Type u} (m : List (String × α)) (k : String) (v : α)
    (p : String × α) (hp : p ∈ setKey m k v) : p = (k, v) ∨ p ∈ m := by
  induction m with
  | nil =>
      simp only [setKey, List.mem_singleton] at hp
      exact Or.inl hp
  | cons hd t ih =>
      obtain ⟨k0, v0⟩ := hd
      by_cases h : k0 = k
      · simp only [setKey, if_pos h, List.mem_cons] at hp
        rcases hp with hp | hp
        · exact Or.inl hp
        · exact Or.inr (List.mem_cons_of_mem _ hp)
      · simp only [setKey, if_neg h, List.mem_cons] at hp
        rcases hp with hp | hp
        · exact Or.inr (List.mem_cons.mpr (Or.inl hp))
        · rcases ih hp with hp | hp
          · exact Or.inl hp
          · exact Or.inr (List.mem_cons_of_mem _ hp)

theorem lookupKey_setKey_self {α : Type u} (m : List (String × α)) (k : String) (v : α) :
    lookupKey (setKey m k v) k = some v := by
  induction m with
  | nil => simp [setKey, lookupKey]
  | cons hd t ih =>
      obtain ⟨k0, v0⟩ := hd
      by_cases h : k0 = k
      · simp [setKey, lookupKey, if_pos h]
      · simp [setKey, lookupKey, if_neg h, ih]

theorem map_fst_setKey {α : Type u} (m : List (String × α)) (k : String) (v w : α)
    (h : lookupKey m k = some w) :
    (setKey m k v).map Prod.fst = m.map Prod.fst := by
  induction m with
  | nil => simp [lookupKey] at h
  | cons hd t ih =>
      obtain ⟨k0, v0⟩ := hd
      by_cases hk : k0 = k
      · simp [setKey, if_pos hk, hk]
      · simp only [lookupKey, if_neg hk] at h
        simp [setKey, if_neg hk, ih h]

theorem lookupKey_mem {α : Type u} (m : List (String × α)) (k : String) (v : α)
    (h : lookupKey m k = some v) : (k, v) ∈ m := by
  induction m with
  | nil => simp [lookupKey] at h
  | cons hd t ih =>
      obtain ⟨k0, v0⟩ := hd
      by_cases hk : k0 = k
      · simp only [lookupKey, if_pos hk] at h
        cases h
        exact hk ▸ List.mem_cons_self _ _
      · simp only [lookupKey, if_neg hk] at h
        exact List.mem_cons_of_mem _ (ih h)

theorem numberOrNull_good (s : String) :
    numberOrNull s = none ∨
      ∃ q : ℚ, numberOrNull s = some (JsNum.num q) ∧ q ≠ 0 := by
  unfold numberOrNull jsOrNull
  cases jsNumber s with
  | nan => exact Or.inl rfl
  | num q =>
      by_cases h : q = 0
      · exact Or.inl (by simp [h])
      · exact Or.inr ⟨q, by simp [h], h⟩

namespace Grid

theorem startRecord_good (hm : List (String × Nat)) (rowData : List Cell)
    (serviceName : String) (st : LoopState)
    (h : ∀ p ∈ st.data, GoodRec p.2) :
    ∀ p ∈ (startRecord hm rowData serviceName st).data, GoodRec p.2 := by
  intro p hp
  simp only [startRecord] at hp
  rcases mem_setKey _ _ _ _ hp with hpe | hpm
  · subst hpe
    exact ⟨⟨[], rfl⟩, numberOrNull_good _⟩
  · exact h p hpm

theorem attachSubheading_good (hm : List (String × Nat)) (rowData : List Cell)
    (subheadingName : String) (st : LoopState)
    (h : ∀ p ∈ st.data, GoodRec p.2) :
    ∀ p ∈ (attachSubheading hm rowData subheadingName st).data, GoodRec p.2 := by
  intro p hp
  unfold attachSubheading at hp
  cases hck : st.currentServiceKey with
  | none =>
      simp only [hck] at hp
      exact h p hp
  | some key =>
      simp only [hck] at hp
      cases hlk : lookupKey st.data key with
      | none =>
          simp only [hlk] at hp
          exact h p hp
      | some r =>
          simp only [hlk] at hp
          rcases mem_setKey _ _ _ _ hp with hpe | hpm
          · subst hpe
            refine ⟨⟨_, rfl⟩, ?_⟩
            have hr := h _ (lookupKey_mem _ _ _ hlk)
            exact hr.2
          · exact h p hpm

theorem nameStep_good (hm : List (String × Nat)) (st : LoopState) (row : Row)
    (h : ∀ p ∈ st.data, GoodRec p.2) :
    ∀ p ∈ (nameStep hm st row).data, GoodRec p.2 := by
  unfold nameStep
  split
  · exact startRecord_good _ _ _ _ h
  · exact h

theorem subheadingStep_good (hm : List (String × Nat)) (st : LoopState) (row : Row)
    (h : ∀ p ∈ st.data, GoodRec p.2) :
    ∀ p ∈ (subheadingStep hm st row).data, GoodRec p.2 := by
  unfold subheadingStep
  split
  · exact attachSubheading_good _ _ _ _ h
  · exact h

theorem processRow_good (hm : List (String × Nat)) (st : LoopState) (row : Row)
    (h : ∀ p ∈ st.data, GoodRec p.2) :
    ∀ p ∈ (processRow hm st row).data, GoodRec p.2 :=
  subheadingStep_good hm _ row (nameStep_good hm st row h)

theorem foldl_good (hm : List (String × Nat)) (rows : List Row) :
    ∀ st : LoopState, (∀ p ∈ st.data, GoodRec p.2) →
      ∀ p ∈ (rows.foldl (processRow hm) st).data, GoodRec p.2 := by
  induction rows with
  | nil => intro st h; simpa using h
  | cons r t ih =>
      intro st h
      exact ih _ (processRow_good hm st r h)

theorem parseRows_good (hm : List (String × Nat)) (dataRows : List Row) :
    ∀ p ∈ (parseRows hm dataRows).data, GoodRec p.2 :=
  foldl_good hm dataRows ⟨[], none⟩ (by intro p hp; cases hp)

theorem cleanupRecord_final (r : EntityRecord) (h : GoodRec r) :
    FinalGoodRec (cleanupRecord r) := by
  obtain ⟨⟨m, hm⟩, hc⟩ := h
  cases m with
  | nil =>
      refine ⟨Or.inl ?_, ?_⟩
      · simp [cleanupRecord, hm]
      · unfold cleanupRecord
        rw [hm]
        exact hc
  | cons a t =>
      have hval : cleanupRecord r = r := by
        unfold cleanupRecord
        rw [hm]
      rw [hval]
      exact ⟨Or.inr ⟨a :: t, hm, by simp⟩, hc⟩

theorem cleanup_final (d : List (String × EntityRecord))
    (h : ∀ p ∈ d, GoodRec p.2) :
    ∀ p ∈ cleanupSubheadings d, FinalGoodRec p.2 := by
  intro p hp
  unfold cleanupSubheadings at hp
  rcases List.mem_map.mp hp with ⟨q, hq, rfl⟩
  exact cleanupRecord_final _ (h q hq)

theorem parseGridRows_ok_final (rows : List Row) (d : List (String × EntityRecord))
    (hok : parseGridRows rows = Except.ok d) :
    ∀ p ∈ d, FinalGoodRec p.2 := by
  match rows with
  | [] => simp [parseGridRows] at hok
  | headerRow :: dataRows =>
      cases hv : headerRow.values with
      | none =>
          simp only [parseGridRows, hv] at hok
          cases hok
      | some headerCells =>
          simp only [parseGridRows, hv, Except.ok.injEq] at hok
          subst hok
          exact cleanup_final _ (parseRows_good _ _)

theorem parseSheetData_ok_final (g : GridData) (out : SheetJson EntityRecord)
    (hok : parseSheetData g = Except.ok out) :
    ∀ p ∈ out.data, FinalGoodRec p.2 := by
  unfold parseSheetData at hok
  cases hf : g.sheets.find? (fun s => s.properties.title = SHEET_NAME) with
  | none =>
      simp only [hf, Except.ok.injEq] at hok
      subst hok
      intro p hp
      cases hp
  | some sheet =>
      simp only [hf] at hok
      cases hd : sheet.data with
      | none =>
          simp only [hd, Except.ok.injEq] at hok
          subst hok
          intro p hp
          cases hp
      | some sections =>
          simp only [hd] at hok
          cases hh : sections.head? with
          | none =>
              simp only [hh] at hok
              cases hok
          | some d0 =>
              simp only [hh] at hok
              cases hrd : d0.rowData with
              | none =>
                  simp only [hrd, Except.ok.injEq] at hok
                  subst hok
                  intro p hp
                  cases hp
              | some rows =>
                  simp only [hrd] at hok
                  cases hpr : parseGridRows rows with
                  | error e =>
                      simp only [hpr] at hok
                      cases hok
                  | ok dd =>
                      simp only [hpr, Except.ok.injEq] at hok
                      subst hok
                      exact parseGridRows_ok_final rows dd hpr

theorem attachSubheading_keys (hm : List (String × Nat)) (rowData : List Cell)
    (subheadingName : String) (st : LoopState) :
    (attachSubheading hm rowData subheadingName st).data.map Prod.fst =
      st.data.map Prod.fst := by
  unfold attachSubheading
  cases hck : st.currentServiceKey with
  | none => simp only [hck]
  | some key =>
      simp only [hck]
      cases hlk : lookupKey st.data key with
      | none => simp only [hlk]
      | some r =>
          simp only [hlk]
          exact map_fst_setKey _ _ _ _ hlk

theorem processRow_unnamed_keys (hm : List (String × Nat)) (st : LoopState) (row : Row)
    (h : jsTrim (serviceNameOf hm row) = "") :
    (processRow hm st row).data.map Prod.fst = st.data.map Prod.fst := by
  unfold processRow
  have hns : nameStep hm st row = st := by
    unfold nameStep
    exact if_neg (fun hc => hc.2 h)
  rw [hns]
  unfold subheadingStep
  split
  · exact attachSubheading_keys _ _ _ _
  · rfl

theorem processRow_unnamed_none (hm : List (String × Nat)) (row : Row)
    (d : List (String × EntityRecord)) (h : jsTrim (serviceNameOf hm row) = "") :
    processRow hm ⟨d, none⟩ row = ⟨d, none⟩ := by
  unfold processRow
  have hns : nameStep hm ⟨d, none⟩ row = ⟨d, none⟩ := by
    unfold nameStep
    exact if_neg (fun hc => hc.2 h)
  rw [hns]
  unfold subheadingStep
  split
  · rfl
  · rfl

theorem foldl_unnamed (hm : List (String × Nat)) (preRows : List Row)
    (h : ∀ row ∈ preRows, jsTrim (serviceNameOf hm row) = "")
    (d : List (String × EntityRecord)) :
    preRows.foldl (processRow hm) ⟨d, none⟩ = ⟨d, none⟩ := by
  induction preRows with
  | nil => rfl
  | cons r t ih =>
      rw [List.foldl_cons, processRow_unnamed_none hm r d (h r (List.mem_cons_self _ _))]
      exact ih (fun row hrow => h row (List.mem_cons_of_mem _ hrow))

theorem parseRows_unnamed_append (hm : List (String × Nat)) (preRows restRows : List Row)
    (h : ∀ row ∈ preRows, jsTrim (serviceNameOf hm row) = "") :
    parseRows hm (preRows ++ restRows) = parseRows hm restRows := by
  unfold parseRows
  rw [List.foldl_append, foldl_unnamed hm preRows h]

theorem processRow_named_lookup (hm : List (String × Nat)) (st : LoopState) (row : Row)
    (h1 : serviceNameOf hm row ≠ "") (h2 : jsTrim (serviceNameOf hm row) ≠ "") :
    Option.map (fun r => (r.Compliant, r.Total, r.Mising, r.percentCompliant))
        (lookupKey (processRow hm st row).data (jsTrim (serviceNameOf hm row))) =
      some (numberOrNull (getCellData hm (row.values.getD []) "Compliant").1,
        (getCellData hm (row.values.getD []) "Total").1,
        (getCellData hm (row.values.getD []) "Mising").1,
        (getCellData hm (row.values.getD []) "% Compliant").1) := by
  unfold processRow
  have hns : nameStep hm st row =
      startRecord hm (row.values.getD []) (serviceNameOf hm row) st := by
    unfold nameStep
    exact if_pos ⟨h1, h2⟩
  rw [hns]
  unfold subheadingStep
  split
  · unfold attachSubheading startRecord
    simp only [lookupKey_setKey_self]
    rfl
  · unfold startRecord
    simp only [lookupKey_setKey_self]
    rfl

end Grid

/-! ## Cache and handler lemmas -/

theorem fetchFresh_called (st : CacheState) (now : Int)
    (u : Except String Grid.GridData) :
    (fetchFresh st now u).upstreamCalled = true := by
  unfold fetchFresh
  cases u with
  | error e => rfl
  | ok g =>
      cases hp : Grid.parseSheetData g with
      | error e => simp only [hp]
      | ok j => simp only [hp]

theorem fetchFresh_error_state (st : CacheState) (now : Int)
    (u : Except String Grid.GridData) (e : String)
    (h : (fetchFresh st now u).result = Except.error e) :
    (fetchFresh st now u).state = st := by
  unfold fetchFresh at h ⊢
  cases u with
  | error e2 => rfl
  | ok g =>
      cases hp : Grid.parseSheetData g with
      | error e2 => simp only [hp]
      | ok j =>
          simp only [hp] at h
          cases h

theorem fetchFresh_ok_state (st : CacheState) (now : Int)
    (u : Except String Grid.GridData) (j : SheetJson Grid.EntityRecord)
    (h : (fetchFresh st now u).result = Except.ok j) :
    (fetchFresh st now u).state = ⟨some j, now⟩ := by
  unfold fetchFresh at h ⊢
  cases u with
  | error e2 => cases h
  | ok g =>
      cases hp : Grid.parseSheetData g with
      | error e2 =>
          simp only [hp] at h
          cases h
      | ok j2 =>
          simp only [hp] at h ⊢
          cases h
          rfl

theorem fetchSheetData_error_state (st : CacheState) (now : Int)
    (u : Except String Grid.GridData) (e : String)
    (h : (fetchSheetData st now u).result = Except.error e) :
    (fetchSheetData st now u).state = st := by
  unfold fetchSheetData at h ⊢
  cases hc : st.cache with
  | none =>
      simp only [hc] at h ⊢
      exact fetchFresh_error_state st now u e h
  | some c =>
      simp only [hc] at h ⊢
      by_cases ht : now - st.cacheTimestamp < CACHE_DURATION
      · rw [if_pos ht] at h
        cases h
      · rw [if_neg ht] at h ⊢
        exact fetchFresh_error_state st now u e h

theorem fetchSheetData_ok_cache (st : CacheState) (now : Int)
    (u : Except String Grid.GridData) (j : SheetJson Grid.EntityRecord)
    (h : (fetchSheetData st now u).result = Except.ok j) :
    (fetchSheetData st now u).state.cache = some j := by
  unfold fetchSheetData at h ⊢
  cases hc : st.cache with
  | none =>
      simp only [hc] at h ⊢
      rw [fetchFresh_ok_state st now u j h]
  | some c =>
      simp only [hc] at h ⊢
      by_cases ht : now - st.cacheTimestamp < CACHE_DURATION
      · rw [if_pos ht] at h ⊢
        simp only at h ⊢
        cases h
        exact hc
      · rw [if_neg ht] at h ⊢
        rw [fetchFresh_ok_state st now u j h]

/-! ## Claim theorems -/

/-- Claim C1, counterexample: in the flat variant (src/index.js) a compliant
cell text "abc" — non-numeric text other than the dash or the word null —
yields NaN in the record, not null, so the claim as stated over both variants
is false. -/
theorem claim_c1_counterexample :
    Flat.parseSheetData (some [["Service", "Compliant", "Total", "Mising", "%Compliant"],
        ["svc", "abc", "1", "2", "3"]]) =
      Except.ok ⟨"Sheet1",
        [("svc", [("Compliant", Flat.FlatVal.nan), ("Total", Flat.FlatVal.num 1),
                  ("Mising", Flat.FlatVal.str "2"), ("%Compliant", Flat.FlatVal.str "3")])]⟩ ∧
    Flat.FlatVal.nan ≠ Flat.FlatVal.null :=
  ⟨rfl, by decide⟩

/-- Claim C1, amended: in the grid variant the compliant coercion yields null
for the dash, the word null, the empty string and every other non-numeric
text, and a record Compliant field is never NaN; in the flat variant only the
exact texts dash and the word null yield null, while the empty string yields
the number 0 and every other non-numeric text yields NaN. -/
theorem claim_c1_amended (s : String) (hnan : jsNumber s = JsNum.nan)
    (hd : s ≠ "-") (hn : s ≠ "null") :
    numberOrNull "-" = none ∧
    numberOrNull "null" = none ∧
    numberOrNull "" = none ∧
    numberOrNull s = none ∧
    (∀ t : String, numberOrNull t ≠ some JsNum.nan) ∧
    (∀ (g : Grid.GridData) (out : SheetJson Grid.EntityRecord),
        Grid.parseSheetData g = Except.ok out →
        ∀ p ∈ out.data, p.2.Compliant ≠ some JsNum.nan) ∧
    Flat.coerceCompliant (some "-") = Flat.FlatVal.null ∧
    Flat.coerceCompliant (some "null") = Flat.FlatVal.null ∧
    Flat.coerceCompliant (some "") = Flat.FlatVal.num 0 ∧
    Flat.coerceCompliant (some s) = Flat.FlatVal.nan := by
  refine ⟨by decide, by decide, by decide, ?_, ?_, ?_, by decide, by decide, by decide, ?_⟩
  · unfold numberOrNull
    rw [hnan]
    rfl
  · intro t h
    unfold numberOrNull jsOrNull at h
    cases hjt : jsNumber t with
    | nan =>
        simp only [hjt] at h
        cases h
    | num q =>
        simp only [hjt] at h
        by_cases hq : q = 0
        · rw [if_pos hq] at h
          cases h
        · rw [if_neg hq] at h
          simp at h
  · intro g out hok p hp
    have hgood := (Grid.parseSheetData_ok_final g out hok p hp).2
    rcases hgood with hnone | ⟨q, hq, hq0⟩
    · rw [hnone]
      intro h
      cases h
    · rw [hq]
      intro h
      simp at h
  · have hcond : ¬(some s = some "-" ∨ some s = some "null") := by
      rintro (h | h)
      · exact hd (Option.some.inj h)
      · exact hn (Option.some.inj h)
    unfold Flat.coerceCompliant
    rw [if_neg hcond]
    simp only [Flat.jsNumToVal, hnan]

/-- Claim C1, witness: the amended theorem applied to the concrete
non-numeric text "abc". -/
theorem claim_c1_witness :
    numberOrNull "abc" = none ∧ Flat.coerceCompliant (some "abc") = Flat.FlatVal.nan := by
  have h := claim_c1_amended "abc" (by decide) (by decide) (by decide)
  exact ⟨h.2.2.2.1, h.2.2.2.2.2.2.2.2.2⟩

/-- Claim C2, counterexample: in the flat variant (src/index.js) a row with
the literal dash in the Mising column gets null there — not the verbatim
string — and its Total value is Number-coerced, so the claim as stated over
both variants is false. -/
theorem claim_c2_counterexample :
    Flat.parseSheetData (some [["Service", "Compliant", "Total", "Mising", "%Compliant"],
        ["svc", "1", "2", "-", "95%"]]) =
      Except.ok ⟨"Sheet1",
        [("svc", [("Compliant", Flat.FlatVal.num 1), ("Total", Flat.FlatVal.num 2),
                  ("Mising", Flat.FlatVal.null), ("%Compliant", Flat.FlatVal.str "95%")])]⟩ ∧
    Flat.FlatVal.null ≠ Flat.FlatVal.str "-" :=
  ⟨rfl, by decide⟩

/-- Claim C2, amended: in the grid variant every data row that starts an
EntityRecord copies the Total, Mising and percent-Compliant cell texts into
the record verbatim as strings (including a literal dash); in the flat
variant the dash is mapped to null in those columns (and the Total column is
Number-coerced), while any other text in columns 3 and 4 is passed through
verbatim. -/
theorem claim_c2_amended (hm : List (String × Nat)) (st : Grid.LoopState) (row : Grid.Row)
    (s : String)
    (h1 : Grid.serviceNameOf hm row ≠ "")
    (h2 : jsTrim (Grid.serviceNameOf hm row) ≠ "")
    (hs : s ≠ "-") :
    Option.map (fun r => (r.Total, r.Mising, r.percentCompliant))
        (lookupKey (Grid.processRow hm st row).data (jsTrim (Grid.serviceNameOf hm row))) =
      some ((Grid.getCellData hm (row.values.getD []) "Total").1,
        (Grid.getCellData hm (row.values.getD []) "Mising").1,
        (Grid.getCellData hm (row.values.getD []) "% Compliant").1) ∧
    Flat.coerceText (some "-") = Flat.FlatVal.null ∧
    Flat.coerceNumeric (some "-") = Flat.FlatVal.null ∧
    Flat.coerceText (some s) = Flat.FlatVal.str s := by
  refine ⟨?_, by decide, by decide, ?_⟩
  · have h := Grid.processRow_named_lookup hm st row h1 h2
    cases hl : lookupKey (Grid.processRow hm st row).data
        (jsTrim (Grid.serviceNameOf hm row)) with
    | none => rw [hl] at h; cases h
    | some r =>
        rw [hl] at h
        simp only [Option.map_some'] at h ⊢
        have h' := Option.some.inj h
        simp only [Prod.mk.injEq] at h'
        exact congrArg some (by
          exact Prod.ext h'.2.1 (Prod.ext h'.2.2.1 h'.2.2.2))
  · have hcond : ¬(some s = some "-") := fun h => hs (Option.some.inj h)
    unfold Flat.coerceText
    rw [if_neg hcond]

/-- Claim C2, witness: the amended theorem applied to a concrete named row
whose Total cell holds the literal dash. -/
theorem claim_c2_witness :
    Option.map (fun r => (r.Total, r.Mising, r.percentCompliant))
        (lookupKey (Grid.processRow
            [("Service", 0), ("Total", 1), ("Mising", 2), ("% Compliant", 3)]
            ⟨[], none⟩
            ⟨some [⟨some "A", none⟩, ⟨some "-", none⟩, ⟨some "5", none⟩,
              ⟨some "95%", none⟩]⟩).data "A") =
      some ("-", "5", "95%") ∧
    Flat.coerceText (some "x") = Flat.FlatVal.str "x" := by
  have h := claim_c2_amended
    [("Service", 0), ("Total", 1), ("Mising", 2), ("% Compliant", 3)]
    ⟨[], none⟩
    ⟨some [⟨some "A", none⟩, ⟨some "-", none⟩, ⟨some "5", none⟩, ⟨some "95%", none⟩]⟩
    "x" (by decide) (by decide) (by decide)
  exact ⟨h.1, h.2.2.2⟩

/-- Claim C3, counterexample: in the flat variant (src/index.js) a row whose
name cell is the whitespace-only string " " — empty after trimming — still
creates a record, keyed by the untrimmed " ", so the claim as stated over
both variants is false. -/
theorem claim_c3_counterexample :
    Flat.parseSheetData (some [["Service", "Compliant", "Total", "Mising", "%Compliant"],
        [" ", "1", "2", "3", "4"]]) =
      Except.ok ⟨"Sheet1",
        [(" ", [("Compliant", Flat.FlatVal.num 1), ("Total", Flat.FlatVal.num 2),
                ("Mising", Flat.FlatVal.str "3"), ("%Compliant", Flat.FlatVal.str "4")])]⟩ ∧
    jsTrim " " = "" :=
  ⟨rfl, rfl⟩

/-- Claim C3, amended: in the grid variant a row whose trimmed service text
is empty never adds a key to the data object (it can only update the
subheadings of an already-open record); in the flat variant only a row whose
cell 0 is absent or the empty string is skipped — a whitespace-only name does
create a record. -/
theorem claim_c3_amended :
    (∀ (hm : List (String × Nat)) (st : Grid.LoopState) (row : Grid.Row),
        jsTrim (Grid.serviceNameOf hm row) = "" →
        (Grid.processRow hm st row).data.map Prod.fst = st.data.map Prod.fst) ∧
    (∀ (headers : List String) (data : List (String × List (String × Flat.FlatVal)))
        (row : List String),
        row.get? 0 = none ∨ row.get? 0 = some "" →
        Flat.processRow headers data row = data) := by
  refine ⟨?_, ?_⟩
  · intro hm st row h
    exact Grid.processRow_unnamed_keys hm st row h
  · intro headers data row h
    rcases h with h | h
    · unfold Flat.processRow
      rw [h]
    · unfold Flat.processRow
      rw [h]
      rfl

/-- Claim C3, witness: the amended theorem applied to a concrete grid row
with whitespace-only service text and to a concrete flat row with an empty
name cell. -/
theorem claim_c3_witness :
    (Grid.processRow [("Service", 0)] ⟨[], none⟩
        ⟨some [⟨some " ", none⟩]⟩).data.map Prod.fst =
      (⟨[], none⟩ : Grid.LoopState).data.map Prod.fst ∧
    Flat.processRow ["Service"] [] ["", "1"] = [] :=
  ⟨claim_c3_amended.1 [("Service", 0)] ⟨[], none⟩ ⟨some [⟨some " ", none⟩]⟩ (by decide),
   claim_c3_amended.2 ["Service"] [] ["", "1"] (Or.inr rfl)⟩

/-- Claim C4, confirmed: rgbToColorName is a pure total function of the three
channels with default 0; it returns Red exactly on the stated threshold
condition, else Green exactly on its condition, else Gray; an absent color
object is Gray; and the six sample classifications hold. -/
theorem claim_c4_confirmed :
    Grid.rgbToColorName none = "Gray" ∧
    (∀ r g b : ℚ, Grid.rgbToColorName (some ⟨some r, some g, some b⟩) =
        (if r > 0.8 ∧ g < 0.2 ∧ b < 0.2 then "Red"
         else if g > 0.5 ∧ r < 0.5 then "Green" else "Gray")) ∧
    (∀ c : Grid.Color, Grid.rgbToColorName (some c) =
        Grid.rgbToColorName (some ⟨some (c.red.getD 0), some (c.green.getD 0),
          some (c.blue.getD 0)⟩)) ∧
    Grid.rgbToColorName (some ⟨some 1, some 0, some 0⟩) = "Red" ∧
    Grid.rgbToColorName (some ⟨some 0, some 1, some 0⟩) = "Green" ∧
    Grid.rgbToColorName (some ⟨some 0, some 0, some 0⟩) = "Gray" ∧
    Grid.rgbToColorName (some ⟨some 0.9, some 0.1, some 0.1⟩) = "Red" ∧
    Grid.rgbToColorName (some ⟨some 0.3, some 0.6, some 0.3⟩) = "Green" ∧
    Grid.rgbToColorName (some ⟨some 1, some 1, some 1⟩) = "Gray" := by
  have hval : ∀ r g b : ℚ, Grid.rgbToColorName (some ⟨some r, some g, some b⟩) =
      (if r > 0.8 ∧ g < 0.2 ∧ b < 0.2 then "Red"
       else if g > 0.5 ∧ r < 0.5 then "Green" else "Gray") := fun r g b => rfl
  refine ⟨rfl, hval, fun c => rfl, ?_, ?_, ?_, ?_, ?_, ?_⟩
  · rw [hval, if_pos (by norm_num)]
  · rw [hval, if_neg (by norm_num), if_pos (by norm_num)]
  · rw [hval, if_neg (by norm_num), if_neg (by norm_num)]
  · rw [hval, if_pos (by norm_num)]
  · rw [hval, if_neg (by norm_num), if_pos (by norm_num)]
  · rw [hval, if_neg (by norm_num), if_neg (by norm_num)]

/-- Claim C5, confirmed: after a successful fetching first call (cache slot
now holds the result with the fetch time), a second call less than
CACHE_DURATION later issues no upstream call and returns the identical cached
result with the slot unchanged; and any call whose age is not below the TTL
issues an upstream call. -/
theorem claim_c5_confirmed (st : CacheState) (t1 t2 : Int)
    (u1 u2 : Except String Grid.GridData) (out : SheetJson Grid.EntityRecord)
    (h1 : fetchSheetData st t1 u1 = ⟨⟨some out, t1⟩, Except.ok out, true⟩)
    (h2 : t2 - t1 < CACHE_DURATION) :
    fetchSheetData ⟨some out, t1⟩ t2 u2 = ⟨⟨some out, t1⟩, Except.ok out, false⟩ ∧
    (∀ (st2 : CacheState) (t : Int) (u : Except String Grid.GridData),
        ¬ (t - st2.cacheTimestamp < CACHE_DURATION) →
        (fetchSheetData st2 t u).upstreamCalled = true) := by
  constructor
  · show (if t2 - t1 < CACHE_DURATION
        then (⟨⟨some out, t1⟩, Except.ok out, false⟩ : FetchOutcome)
        else fetchFresh ⟨some out, t1⟩ t2 u2) =
      ⟨⟨some out, t1⟩, Except.ok out, false⟩
    exact if_pos h2
  · intro st2 t u hT
    unfold fetchSheetData
    cases hc : st2.cache with
    | none =>
        simp only [hc]
        exact fetchFresh_called _ _ _
    | some c =>
        simp only [hc]
        rw [if_neg hT]
        exact fetchFresh_called _ _ _

/-- Claim C5, witness: the theorem applied to a concrete first fetch at time
5 and a second call at time 10 whose upstream is down; the cached value is
served with no upstream call. -/
theorem claim_c5_witness :
    fetchSheetData ⟨some ⟨"Sheet1", []⟩, 5⟩ 10 (Except.error "down") =
      ⟨⟨some ⟨"Sheet1", []⟩, 5⟩, Except.ok ⟨"Sheet1", []⟩, false⟩ :=
  (claim_c5_confirmed ⟨none, 0⟩ 5 10 (Except.ok ⟨[]⟩) (Except.error "down")
    ⟨"Sheet1", []⟩ rfl (by decide)).1

/-- Claim C6, confirmed: a failed fetch (upstream error or parse error)
leaves the cache slot exactly as it was and produces a 500 response whose
details field carries the thrown message (non-empty whenever the message is);
a successful fetch replaces the cache with the returned value and produces a
200 response. -/
theorem claim_c6_confirmed (st : CacheState) (now : Int)
    (u : Except String Grid.GridData) :
    (∀ e : String, (fetchSheetData st now u).result = Except.error e →
        (fetchSheetData st now u).state = st ∧
        (handleSheetDataRequest st now u).1 = st ∧
        (handleSheetDataRequest st now u).2.status = 500 ∧
        (handleSheetDataRequest st now u).2.details = some e ∧
        (e ≠ "" → (handleSheetDataRequest st now u).2.details ≠ some "")) ∧
    (∀ j : SheetJson Grid.EntityRecord,
        (fetchSheetData st now u).result = Except.ok j →
        (fetchSheetData st now u).state.cache = some j ∧
        (handleSheetDataRequest st now u).2.status = 200) := by
  constructor
  · intro e he
    have hst := fetchSheetData_error_state st now u e he
    have hhandle : handleSheetDataRequest st now u =
        ((fetchSheetData st now u).state,
          ⟨500, none, some "Failed to fetch sheet data", some e⟩) := by
      unfold handleSheetDataRequest
      simp only [he]
    refine ⟨hst, ?_, ?_, ?_, ?_⟩
    · rw [hhandle]
      exact hst
    · rw [hhandle]
    · rw [hhandle]
    · intro hne hcontra
      rw [hhandle] at hcontra
      exact hne (Option.some.inj hcontra)
  · intro j hj
    refine ⟨fetchSheetData_ok_cache st now u j hj, ?_⟩
    unfold handleSheetDataRequest
    simp only [hj]

/-- Claim C6, witness: the theorem applied to a concrete upstream failure
with message "boom" against an empty cache. -/
theorem claim_c6_witness :
    (handleSheetDataRequest ⟨none, 0⟩ 7 (Except.error "boom")).2.status = 500 ∧
    (handleSheetDataRequest ⟨none, 0⟩ 7 (Except.error "boom")).2.details = some "boom" ∧
    (handleSheetDataRequest ⟨none, 0⟩ 7 (Except.error "boom")).1 = ⟨none, 0⟩ := by
  have h := (claim_c6_confirmed ⟨none, 0⟩ 7 (Except.error "boom")).1 "boom" rfl
  exact ⟨h.2.2.1, h.2.2.2.1, h.2.1⟩

/-- Claim C7, confirmed: in the grid transformer's output every record's
Subheading is never an empty mapping; the cleanup pass turns exactly the
empty mapping into the literal 0 and keeps a non-empty mapping unchanged; and
during the row loop no record ever has the literal 0, so a 0 in the output
means the loop attached no subheading entries to that record. -/
theorem claim_c7_confirmed :
    (∀ (g : Grid.GridData) (out : SheetJson Grid.EntityRecord),
        Grid.parseSheetData g = Except.ok out →
        ∀ p ∈ out.data, p.2.Subheading ≠ Grid.SubheadingVal.smap []) ∧
    (∀ (r : Grid.EntityRecord) (m : List (String × Grid.SubEntry)),
        r.Subheading = Grid.SubheadingVal.smap m →
        (Grid.cleanupRecord r).Subheading =
          (if m = [] then Grid.SubheadingVal.num0 else Grid.SubheadingVal.smap m)) ∧
    (∀ (hm : List (String × Nat)) (dataRows : List Grid.Row),
        ∀ p ∈ (Grid.parseRows hm dataRows).data,
          p.2.Subheading ≠ Grid.SubheadingVal.num0) := by
  refine ⟨?_, ?_, ?_⟩
  · intro g out hok p hp
    have h := (Grid.parseSheetData_ok_final g out hok p hp).1
    rcases h with h | ⟨m, hm2, hne⟩
    · rw [h]
      intro hcontra
      cases hcontra
    · rw [hm2]
      intro hcontra
      injection hcontra with h'
      exact hne h'
  · intro r m hm2
    cases m with
    | nil =>
        rw [if_pos rfl]
        simp only [Grid.cleanupRecord, hm2]
    | cons a t =>
        rw [if_neg (by simp)]
        simp only [Grid.cleanupRecord, hm2]
  · intro hm dataRows p hp
    obtain ⟨⟨m, hsub⟩, _⟩ := Grid.parseRows_good hm dataRows p hp
    rw [hsub]
    intro h
    cases h

/-- Claim C7, witness: the cleanup clause of the theorem applied to a
concrete record whose Subheading mapping is empty — it becomes the literal 0. -/
theorem claim_c7_witness :
    (Grid.cleanupRecord
        ⟨Grid.SubheadingVal.smap [], none, "", "", "", none, none⟩).Subheading =
      (if ([] : List (String × Grid.SubEntry)) = [] then Grid.SubheadingVal.num0
       else Grid.SubheadingVal.smap []) :=
  claim_c7_confirmed.2.1 ⟨Grid.SubheadingVal.smap [], none, "", "", "", none, none⟩ [] rfl

/-- Claim C8, confirmed: any block of rows with empty trimmed service text at
the start of the data section — in particular subheading-only rows before the
first named row — contributes nothing: the transformer's output on the grid
with the block equals its output on the grid without it. -/
theorem claim_c8_confirmed (headerRow : Grid.Row) (preRows restRows : List Grid.Row)
    (hpre : ∀ cells, headerRow.values = some cells →
        ∀ row ∈ preRows,
          jsTrim (Grid.serviceNameOf (Grid.headerMapOf cells) row) = "") :
    Grid.parseGridRows (headerRow :: (preRows ++ restRows)) =
      Grid.parseGridRows (headerRow :: restRows) := by
  cases hv : headerRow.values with
  | none => simp only [Grid.parseGridRows, hv]
  | some cells =>
      simp only [Grid.parseGridRows, hv]
      rw [Grid.parseRows_unnamed_append (Grid.headerMapOf cells) preRows restRows
        (hpre cells hv)]

/-- Claim C8, witness: the theorem applied to a concrete grid whose first
data row is a subheading-only row (no service text, subheading "Early")
occurring before the first named row. -/
theorem claim_c8_witness :
    Grid.parseGridRows [⟨some [⟨some "Service", none⟩, ⟨some "Subheading", none⟩]⟩,
        ⟨some [⟨none, none⟩, ⟨some "Early", none⟩]⟩,
        ⟨some [⟨some "A", none⟩]⟩] =
      Grid.parseGridRows [⟨some [⟨some "Service", none⟩, ⟨some "Subheading", none⟩]⟩,
        ⟨some [⟨some "A", none⟩]⟩] := by
  refine claim_c8_confirmed ⟨some [⟨some "Service", none⟩, ⟨some "Subheading", none⟩]⟩
    [⟨some [⟨none, none⟩, ⟨some "Early", none⟩]⟩] [⟨some [⟨some "A", none⟩]⟩] ?_
  intro cells hc row hr
  cases hc
  simp only [List.mem_singleton] at hr
  subst hr
  rfl

/-- Claim C9, counterexample: a grid whose matching sheet carries an empty
data array is malformed (its row data is absent), yet parseSheetData throws a
TypeError reading rowData of data[0] instead of returning the empty mapping. -/
theorem claim_c9_counterexample :
    Grid.parseSheetData ⟨[⟨⟨"Sheet1"⟩, some []⟩]⟩ =
      Except.error "TypeError: cannot read rowData of undefined" := rfl

/-- Claim C9, amended: parseSheetData returns the empty mapping under the
sheet-name key, without error, when no sheet title matches, when the matched
sheet has no data field, or when the first data element exists but has no
rowData; but when the data field is an empty array the guard itself throws a
TypeError. The flat variant returns the empty mapping for an empty values
matrix and throws when the matrix is absent. -/
theorem claim_c9_amended :
    (∀ g : Grid.GridData,
        g.sheets.find? (fun s => s.properties.title = SHEET_NAME) = none →
        Grid.parseSheetData g = Except.ok ⟨SHEET_NAME, []⟩) ∧
    (∀ (g : Grid.GridData) (sheet : Grid.Sheet),
        g.sheets.find? (fun s => s.properties.title = SHEET_NAME) = some sheet →
        (sheet.data = none → Grid.parseSheetData g = Except.ok ⟨SHEET_NAME, []⟩) ∧
        (∀ (d0 : Grid.GridSection) (rest2 : List Grid.GridSection),
            sheet.data = some (d0 :: rest2) → d0.rowData = none →
            Grid.parseSheetData g = Except.ok ⟨SHEET_NAME, []⟩) ∧
        (sheet.data = some [] →
            Grid.parseSheetData g =
              Except.error "TypeError: cannot read rowData of undefined")) ∧
    Flat.parseSheetData (some []) = Except.ok ⟨SHEET_NAME, []⟩ ∧
    Flat.parseSheetData none =
      Except.error "TypeError: cannot read properties of undefined" := by
  refine ⟨?_, ?_, rfl, rfl⟩
  · intro g hf
    unfold Grid.parseSheetData
    simp only [hf]
  · intro g sheet hf
    refine ⟨?_, ?_, ?_⟩
    · intro hd
      unfold Grid.parseSheetData
      simp only [hf, hd]
    · intro d0 rest2 hd hrd
      unfold Grid.parseSheetData
      simp only [hf, hd, List.head?_cons, hrd]
    · intro hd
      unfold Grid.parseSheetData
      simp only [hf, hd, List.head?_nil]

/-- Claim C9, witness: the amended theorem applied to a concrete grid with no
sheets at all — no title matches, and the empty mapping is returned. -/
theorem claim_c9_witness :
    Grid.parseSheetData ⟨[]⟩ = Except.ok ⟨SHEET_NAME, []⟩ :=
  claim_c9_amended.1 ⟨[]⟩ rfl

/-- Claim C10, confirmed: in the grid variant every output record's Compliant
field is null or a nonzero number — never NaN and never 0 — because the
coercion is Number(value) with falsy fall-through to null; in particular the
cell texts "0" and "" both coerce to null. -/
theorem claim_c10_confirmed (g : Grid.GridData) (out : SheetJson Grid.EntityRecord)
    (hok : Grid.parseSheetData g = Except.ok out) :
    (∀ p ∈ out.data,
        p.2.Compliant ≠ some JsNum.nan ∧ p.2.Compliant ≠ some (JsNum.num 0)) ∧
    numberOrNull "0" = none ∧ numberOrNull "" = none := by
  refine ⟨?_, by decide, by decide⟩
  intro p hp
  have h := (Grid.parseSheetData_ok_final g out hok p hp).2
  rcases h with h | ⟨q, hq, hq0⟩
  · rw [h]
    exact ⟨fun hc => Option.noConfusion hc, fun hc => Option.noConfusion hc⟩
  · rw [hq]
    constructor
    · intro hc
      exact JsNum.noConfusion (Option.some.inj hc)
    · intro hc
      exact hq0 (JsNum.num.inj (Option.some.inj hc))

/-- Claim C10, witness: the theorem applied to a concrete grid whose single
entity has compliant cell text "0"; its Compliant field is null, not 0. -/
theorem claim_c10_witness :
    numberOrNull "0" = none ∧ numberOrNull "" = none ∧
    (⟨Grid.SubheadingVal.num0, none, "", "", "", none, none⟩ :
        Grid.EntityRecord).Compliant ≠ some (JsNum.num 0) := by
  have h := claim_c10_confirmed
    ⟨[⟨⟨"Sheet1"⟩, some [⟨some [⟨some [⟨some "Service", none⟩, ⟨some "Compliant", none⟩]⟩,
        ⟨some [⟨some "A", none⟩, ⟨some "0", none⟩]⟩]⟩]⟩]⟩
    ⟨"Sheet1", [("A", ⟨Grid.SubheadingVal.num0, none, "", "", "", none, none⟩)]⟩ rfl
  exact ⟨h.2.1, h.2.2,
    (h.1 ("A", ⟨Grid.SubheadingVal.num0, none, "", "", "", none, none⟩)
      (List.mem_singleton.mpr rfl)).2⟩
